import Mathlib

/-!
Verification development for the parcel resource-client library.

The embedding follows `src/unnamed/part_000` (the App resource module: POD
schema, the `App` model class, the `AppImpl` collection operations, and the
endpoint constants — the file contains two versions of the module, both are
embedded where a claim needs them) and, for the transport layer (`http.ts`)
and the dataset streaming helpers (`dataset.ts`), which are not part of the
snapshot, definitions modelled from the spec, each marked as such in its doc
comment.

Conventions: JavaScript strings are `String`; an optional field (possibly
`undefined` at runtime) is an `Option`; an ISO-8601 timestamp wrapped by
`new Date(...)` is a `Date` structure holding the canonical string, compared
by value; branded identifier types (`AppId`, `IdentityId`, `ResourceId`) are
compile-time-only distinctions over strings with no runtime tag, so they are
plain `String` here, matching the runtime semantics of the `as` casts.
-/

/-- A resource identifier: an opaque string with no runtime tag. -/
abbrev ResourceId := String

/-- The `AppId` brand over `ResourceId` (compile-time only, no runtime tag). -/
abbrev AppId := ResourceId

/-- The `IdentityId` brand over `ResourceId` (compile-time only, no runtime tag). -/
abbrev IdentityId := ResourceId

/-- A JavaScript `Date` built by `new Date(iso)` from a canonical ISO-8601
string, represented by that string and compared by value (for canonical
ISO-8601 inputs, `JSON.stringify` reproduces the string exactly). -/
structure Date where
  iso : String
deriving DecidableEq, Repr

/-- `new Date(s)` for a canonical ISO-8601 string `s`. -/
def newDate (s : String) : Date := ⟨s⟩

/-- Error raised by the transport for an unexpected HTTP status, carrying the
status code (spec section 7: `RequestError`). -/
inductive HttpError where
  | requestError (status : Nat)
deriving DecidableEq, Repr

/-- The generic pagination envelope from `model.ts`: an ordered result list
plus an optional opaque continuation token. -/
structure Page (α : Type) where
  results : List α
  nextPageToken : Option String
deriving Repr

/-- The POD (wire) shape of an App, `PODApp` from the first module version of
`src/unnamed/part_000` (lines 11-34): `PODModel` contributes `id` and
`createdAt`; `?`-marked fields are optional. -/
structure PODApp where
  id : ResourceId
  createdAt : String
  acceptanceText : Option String
  admins : List ResourceId
  allowUserUploads : Bool
  brandingColor : Option String
  category : Option String
  collaborators : List ResourceId
  extendedDescription : Option String
  homepageUrl : String
  invitationText : Option String
  inviteOnly : Bool
  invites : Option (List ResourceId)
  logoUrl : String
  name : String
  organization : String
  owner : ResourceId
  participants : List ResourceId
  published : Bool
  rejectionText : Option String
  shortDescription : String
  termsAndConditions : String
  privacyPolicy : String
  trusted : Bool
deriving DecidableEq, Repr

/-- The `App` model class (first module version of `src/unnamed/part_000`,
lines 36-145). `client` is the private `HttpClient` reference held by the
object, modelled as an abstract handle. `invites` is declared non-optional in
the class (`public invites: IdentityId[]`) but the constructor copies the
optional POD field through an `as` cast, so its runtime value may be
`undefined`; the field domain here is the runtime one, `Option`. -/
structure App where
  client : Nat
  id : AppId
  createdAt : Date
  owner : IdentityId
  admins : List IdentityId
  collaborators : List IdentityId
  published : Bool
  inviteOnly : Bool
  invites : Option (List IdentityId)
  participants : List IdentityId
  allowUserUploads : Bool
  name : String
  organization : String
  shortDescription : String
  homepageUrl : String
  logoUrl : String
  privacyPolicy : String
  termsAndConditions : String
  invitationText : Option String
  acceptanceText : Option String
  rejectionText : Option String
  extendedDescription : Option String
  brandingColor : Option String
  category : Option String
  trusted : Bool
deriving DecidableEq, Repr

/-- The `App` constructor (`src/unnamed/part_000` lines 87-112): each field is
copied from the POD snapshot; `createdAt` goes through `new Date(...)`; the
identifier casts (`as AppId` / `as IdentityId[]`) do not change the value. -/
def App.fromPod (client : Nat) (pod : PODApp) : App :=
  { client := client
    acceptanceText := pod.acceptanceText
    admins := pod.admins
    allowUserUploads := pod.allowUserUploads
    brandingColor := pod.brandingColor
    category := pod.category
    collaborators := pod.collaborators
    createdAt := newDate pod.createdAt
    owner := pod.owner
    extendedDescription := pod.extendedDescription
    homepageUrl := pod.homepageUrl
    id := pod.id
    invites := pod.invites
    invitationText := pod.invitationText
    inviteOnly := pod.inviteOnly
    name := pod.name
    organization := pod.organization
    participants := pod.participants
    privacyPolicy := pod.privacyPolicy
    published := pod.published
    rejectionText := pod.rejectionText
    shortDescription := pod.shortDescription
    termsAndConditions := pod.termsAndConditions
    logoUrl := pod.logoUrl
    trusted := pod.trusted }

/-- `Object.assign(target, source)` specialised to two `App` objects: every
field of `source` is an own enumerable property (the constructor assigns all
of them, including the private `client` and the possibly-`undefined`
optionals), so each one is copied onto `target`. -/
def objectAssign (_target source : App) : App :=
  { client := source.client
    id := source.id
    createdAt := source.createdAt
    owner := source.owner
    admins := source.admins
    collaborators := source.collaborators
    published := source.published
    inviteOnly := source.inviteOnly
    invites := source.invites
    participants := source.participants
    allowUserUploads := source.allowUserUploads
    name := source.name
    organization := source.organization
    shortDescription := source.shortDescription
    homepageUrl := source.homepageUrl
    logoUrl := source.logoUrl
    privacyPolicy := source.privacyPolicy
    termsAndConditions := source.termsAndConditions
    invitationText := source.invitationText
    acceptanceText := source.acceptanceText
    rejectionText := source.rejectionText
    extendedDescription := source.extendedDescription
    brandingColor := source.brandingColor
    category := source.category
    trusted := source.trusted }

/-- `APPS_EP` from the first module version (`src/unnamed/part_000` line 183). -/
def APPS_EP : String := "apps"

/-- `endpointForId` from the first module version (line 184):
 the template literal `${APPS_EP}/${id}`. -/
def endpointForId (id : AppId) : String := APPS_EP ++ "/" ++ id

namespace V2

/-- `APPS_EP` from the second module version (`src/unnamed/part_000` line 378). -/
def APPS_EP : String := "/apps"

/-- `endpointForId` from the second module version (line 379):
 the template literal `/apps/${id}`. -/
def endpointForId (id : AppId) : String := "/apps/" ++ id

end V2

/-- Modelled from the spec: `HttpClient.delete` (the transport source,
`http.ts`, is not in the snapshot; only its interface and callers are).
Spec sections 6-7: `delete(endpoint) -> void (expects 204; any other status is
an error)`; "success is signaled only by HTTP 204 (No Content); a 200 response
with a body is treated as a contract violation and raised as an error". Given
the endpoint and the status of the response from the server, the call resolves with
`()` exactly on 204 and raises on every other status. -/
def HttpClient.deleteCall (_client : Nat) (_endpoint : String) (status : Nat) :
    Except HttpError Unit :=
  if status = 204 then .ok () else .error (.requestError status)

namespace AppImpl

/-- `AppImpl.get` (`src/unnamed/part_000` lines 152-154), with the parsed response
body from the transport passed in: the POD from `client.get` is wrapped by the
`App` constructor. -/
def get (client : Nat) (_id : AppId) (responsePod : PODApp) : App :=
  App.fromPod client responsePod

/-- `AppImpl.list` (`src/unnamed/part_000` lines 156-166), with the parsed response
page from the transport passed in: each POD result is wrapped by the `App`
constructor and the `nextPageToken` is carried over unchanged. -/
def list (client : Nat) (podPage : Page PODApp) : Page App :=
  { results := podPage.results.map (fun podApp => App.fromPod client podApp)
    nextPageToken := podPage.nextPageToken }

/-- `AppImpl.update` (`src/unnamed/part_000` lines 168-176), with the
parsed response body from the transport passed in: the POD from `client.update` is
wrapped by the `App` constructor. -/
def update (client : Nat) (_id : AppId) (responsePod : PODApp) : App :=
  App.fromPod client responsePod

/-- `AppImpl.delete_` (`src/unnamed/part_000` lines 178-180): forwards to
`client.delete(endpointForId(id))`, with the status of the response
from the server passed in. -/
def delete_ (client : Nat) (id : AppId) (status : Nat) : Except HttpError Unit :=
  HttpClient.deleteCall client (endpointForId id) status

end AppImpl

/-- A mutable object store mapping object references to `App` objects; used to
state reference-identity and frame properties of the `App` instance methods. -/
def Store := Nat → Option App

/-- The `App.update` instance method (`src/unnamed/part_000` lines 114-117):
`Object.assign(this, await AppImpl.update(this.client, this.id, params))`
followed by `return this`. The store is updated in place at the reference of
the object and that same reference is returned; `responsePod` is the parsed
body of the response from the server to the PUT. -/
def App.updateMethod (σ : Store) (r : Nat) (responsePod : PODApp) : Store × Nat :=
  (fun r' =>
    if r' = r then
      (σ r).map (fun self => objectAssign self (AppImpl.update self.client self.id responsePod))
    else σ r',
   r)

/-- The `App.delete` instance method (`src/unnamed/part_000` lines 119-121):
`return AppImpl.delete_(this.client, this.id)` — the store is untouched and
the transport result is returned (`none` when the reference is dangling). -/
def App.deleteMethod (σ : Store) (r : Nat) (status : Nat) :
    Store × Option (Except HttpError Unit) :=
  (σ, (σ r).map (fun self => AppImpl.delete_ self.client self.id status))

/-- Modelled from the spec: the lowercase-hyphenated (param-case) rendering of
a filter key, applied by the query-serialization layer of `http.ts`, which is
not in the snapshot (spec sections 4.3 and 6: "filter keys are
lowercase-hyphenated; pagination uses `page-size` and `next-page-token`").
Each uppercase letter of a camelCase key becomes a hyphen followed by its
lowercase form. -/
def paramCaseChars : List Char → List Char
  | [] => []
  | c :: cs => if c.isUpper then '-' :: c.toLower :: paramCaseChars cs else c :: paramCaseChars cs

/-- Modelled from the spec: `paramCase` on strings (see `paramCaseChars`). -/
def paramCase (s : String) : String := String.mk (paramCaseChars s.data)

/-- A composite tags matcher for the dataset list filter: all-of or any-of
over a string list (spec section 4.3). -/
inductive TagsMatcher where
  | all (tags : List String)
  | any (tags : List String)
deriving DecidableEq, Repr

/-- Modelled from the spec: the composite-matcher query encoding of the gateway for
tags filters, applied by serialization code not in the snapshot (spec section
4.3: a tags filter with an all matcher over the list tag1, tag2 encodes as
`all:tag1,tag2`). -/
def serializeTags : TagsMatcher → String
  | .all tags => "all:" ++ String.intercalate "," tags
  | .any tags => "any:" ++ String.intercalate "," tags

/-- A filter value: a string scalar, a numeric scalar, or a composite tags
matcher. -/
inductive FilterValue where
  | str (s : String)
  | nat (n : Nat)
  | tags (m : TagsMatcher)
deriving DecidableEq, Repr

/-- Modelled from the spec: serialization of one filter entry into a query
parameter — the key is rendered in param-case, a scalar value serializes as
its string form, a composite tags matcher per `serializeTags` (spec section
4.3). -/
def serializeFilterEntry : String × FilterValue → String × String
  | (k, .str s) => (paramCase k, s)
  | (k, .nat n) => (paramCase k, toString n)
  | (k, .tags m) => (paramCase k, serializeTags m)

/-- Modelled from the spec: serialization of a whole filter mapping into
query parameters, entry by entry (spec section 4.3, "Each filter key maps 1:1
to a query parameter"). -/
def serializeFilter (f : List (String × FilterValue)) : List (String × String) :=
  f.map serializeFilterEntry

/-- Error surface of a dataset download: a transport-level `RequestError` for
a non-2xx status, or the exact error reported by the caller-supplied
destination sink (spec section 7: `SinkError` is "propagated verbatim,
unwrapped"). -/
inductive DownloadError where
  | requestError (status : Nat)
  | sinkError (e : String)
deriving DecidableEq, Repr

/-- Modelled from the spec: the chunk-pumping loop of a dataset download
(`http.ts` / `dataset.ts` are not in the snapshot). Each chunk of the response
body is handed to the sink in order; the first write failure aborts the
stream and propagates the own error of the sink. Returns the chunks actually
written to the sink alongside the outcome. -/
def pipeChunks (sink : List Nat → Except String Unit) :
    List (List Nat) → List (List Nat) × Except DownloadError Unit
  | [] => ([], .ok ())
  | c :: rest =>
    match sink c with
    | .error e => ([], .error (.sinkError e))
    | .ok () =>
      let out := pipeChunks sink rest
      (c :: out.1, out.2)

/-- Modelled from the spec: `download.pipeTo(destinationSink)` (spec sections
4.5 and 6: the handle fails before the first byte on a non-2xx status;
otherwise the body streams chunk-by-chunk into the sink). `status` is the HTTP
status of the response, `body` its chunked payload, `sink` the caller-supplied
destination; returns the chunks delivered to the sink and the outcome. -/
def pipeTo (status : Nat) (body : List (List Nat))
    (sink : List Nat → Except String Unit) :
    List (List Nat) × Except DownloadError Unit :=
  if 200 ≤ status ∧ status < 300 then pipeChunks sink body
  else ([], .error (.requestError status))

/-- The content of one multipart part: a JSON document or an opaque byte
payload. -/
inductive PartContent where
  | json (doc : String)
  | bytes (payload : List Nat)
deriving DecidableEq, Repr

/-- One part of a `multipart/form-data` request: its form-data name, declared
content type, and content. -/
structure FormPart where
  name : String
  contentType : String
  content : PartContent
deriving DecidableEq, Repr

/-- Modelled from the spec: the parts of the multipart dataset-upload request
(`dataset.ts` / `http.ts` are not in the snapshot). Spec sections 4.4 and 6:
"one part named `metadata` (JSON-encoded, included only if metadata was
supplied) and one part named `data` (the opaque byte payload, declared as
binary)"; parts are named exactly `metadata` and `data`, the data part is
`application/octet-stream`, the metadata part `application/json`. `metadata`
is the JSON-encoded metadata document when supplied. -/
def uploadParts (data : List Nat) (metadata : Option String) : List FormPart :=
  (match metadata with
   | some doc => [⟨"metadata", "application/json", .json doc⟩]
   | none => []) ++ [⟨"data", "application/octet-stream", .bytes data⟩]

/-- The POD (wire) shape of a Dataset, as exercised by the test fixtures:
`PODModel` fields plus creator, owner, and an optional JSON metadata document
(the `dataset.ts` source is not in the snapshot; the shape is modelled from
the spec and fixtures). -/
structure PODDataset where
  id : ResourceId
  createdAt : String
  creator : ResourceId
  owner : ResourceId
  metadata : Option String
deriving DecidableEq, Repr

/-- The Dataset model object, constructed from a POD snapshot like every other
resource kind (modelled from the spec, `dataset.ts` not being in the
snapshot). -/
structure Dataset where
  client : Nat
  id : ResourceId
  createdAt : Date
  creator : IdentityId
  owner : IdentityId
  metadata : Option String
deriving DecidableEq, Repr

/-- Modelled from the spec: the Dataset constructor, copying the POD snapshot
field-for-field with `createdAt` parsed (spec section 8 round-trip property
applied to kind Dataset). -/
def Dataset.fromPod (client : Nat) (pod : PODDataset) : Dataset :=
  { client := client
    id := pod.id
    createdAt := newDate pod.createdAt
    creator := pod.creator
    owner := pod.owner
    metadata := pod.metadata }

/-- Modelled from the spec: awaiting the completion of the upload handle. The
transport expects 201 for create (spec section 6); on 201 the created Dataset
is constructed from the response body, on any other status the handle fails
with a `RequestError`. -/
def uploadFinished (client : Nat) (status : Nat) (responsePod : PODDataset) :
    Except HttpError Dataset :=
  if status = 201 then .ok (Dataset.fromPod client responsePod)
  else .error (.requestError status)

/-- A concrete POD App snapshot, mirroring the shape of the test fixture
`createPodApp`, used to instantiate the theorems below. -/
def samplePod : PODApp :=
  { id := "00000000-0000-0000-0000-000000000001"
    createdAt := "2021-01-01T00:00:00.000Z"
    acceptanceText := some "thanks for the data!"
    admins := ["00000000-0000-0000-0000-000000000002"]
    allowUserUploads := false
    brandingColor := some "#abcdef"
    category := some "testing"
    collaborators := ["00000000-0000-0000-0000-000000000003"]
    extendedDescription := none
    homepageUrl := "https://friendly.app"
    invitationText := some "plz give data"
    inviteOnly := true
    invites := none
    logoUrl := "https://friendly.app/logo.png"
    name := "test app"
    organization := "Oasis Labs"
    owner := "00000000-0000-0000-0000-000000000004"
    participants := []
    published := false
    rejectionText := none
    shortDescription := "shrt dscrptn"
    termsAndConditions := "https://friendly.app/terms"
    privacyPolicy := "https://friendly.app/privacy"
    trusted := false }

/-- A concrete App object built from `samplePod` with client handle 0. -/
def sampleApp : App := App.fromPod 0 samplePod

/-- A concrete one-object store holding `sampleApp` at reference 0. -/
def sampleStore : Store := fun r => if r = 0 then some sampleApp else none

/-- A concrete destination sink that accepts every chunk except `[2, 3]`, on
which it reports the error `whoops`. -/
def sampleSink : List Nat → Except String Unit :=
  fun chunk => if chunk = [2, 3] then .error "whoops" else .ok ()

/-- `Object.assign` onto an App object overwrites every field: the App
constructor assigns all fields (optional ones included), so each is an own
enumerable property of the source and is copied. -/
theorem objectAssign_overwrites_all (t s : App) : objectAssign t s = s := rfl

/-- The download pump delivers exactly the chunks before the first failing
write, then aborts with the error reported by the sink for that write. -/
theorem pipeChunks_stops_at_first_error (sink : List Nat → Except String Unit)
    (pre : List (List Nat)) (c : List Nat) (post : List (List Nat)) (e : String)
    (hok : ∀ c' ∈ pre, sink c' = .ok ()) (herr : sink c = .error e) :
    pipeChunks sink (pre ++ c :: post) = (pre, .error (.sinkError e)) := by
  induction pre with
  | nil => simp [pipeChunks, herr]
  | cons d rest ih =>
    have hd : sink d = .ok () := hok d (by simp)
    have hrest := ih (fun c' hc' => hok c' (by simp [hc']))
    simp [pipeChunks, hd, hrest]

/-- C1: for every resource kind, the delete operation succeeds if and only if
the transport reports HTTP 204; in particular every delete call that receives
an HTTP 200 response fails with an error rather than returning void. Stated
for the shared transport method `HttpClient.deleteCall` (used by every
resource kind) and for the App forwarder `AppImpl.delete_`. -/
theorem delete_succeeds_iff_204 (client : Nat) (endpoint : String) (id : AppId)
    (status : Nat) :
    (HttpClient.deleteCall client endpoint status = .ok () ↔ status = 204) ∧
    HttpClient.deleteCall client endpoint 200 = .error (.requestError 200) ∧
    (AppImpl.delete_ client id status = .ok () ↔ status = 204) ∧
    AppImpl.delete_ client id 200 = .error (.requestError 200) := by
  refine ⟨?_, rfl, ?_, rfl⟩ <;>
    · by_cases h : status = 204 <;>
        simp [HttpClient.deleteCall, AppImpl.delete_, h]

/-- C2: constructing an App from a valid POD snapshot and reading back its
public fields reproduces the snapshot field-for-field; `createdAt` is parsed
into a date value equal by value to the ISO-8601 string of the snapshot, and
identifier fields keep their string value unchanged. -/
theorem app_constructor_roundtrip (client : Nat) (pod : PODApp) :
    (App.fromPod client pod).id = pod.id ∧
    (App.fromPod client pod).createdAt = newDate pod.createdAt ∧
    (App.fromPod client pod).createdAt.iso = pod.createdAt ∧
    (App.fromPod client pod).acceptanceText = pod.acceptanceText ∧
    (App.fromPod client pod).admins = pod.admins ∧
    (App.fromPod client pod).allowUserUploads = pod.allowUserUploads ∧
    (App.fromPod client pod).brandingColor = pod.brandingColor ∧
    (App.fromPod client pod).category = pod.category ∧
    (App.fromPod client pod).collaborators = pod.collaborators ∧
    (App.fromPod client pod).extendedDescription = pod.extendedDescription ∧
    (App.fromPod client pod).homepageUrl = pod.homepageUrl ∧
    (App.fromPod client pod).invitationText = pod.invitationText ∧
    (App.fromPod client pod).inviteOnly = pod.inviteOnly ∧
    (App.fromPod client pod).invites = pod.invites ∧
    (App.fromPod client pod).logoUrl = pod.logoUrl ∧
    (App.fromPod client pod).name = pod.name ∧
    (App.fromPod client pod).organization = pod.organization ∧
    (App.fromPod client pod).owner = pod.owner ∧
    (App.fromPod client pod).participants = pod.participants ∧
    (App.fromPod client pod).published = pod.published ∧
    (App.fromPod client pod).rejectionText = pod.rejectionText ∧
    (App.fromPod client pod).shortDescription = pod.shortDescription ∧
    (App.fromPod client pod).termsAndConditions = pod.termsAndConditions ∧
    (App.fromPod client pod).privacyPolicy = pod.privacyPolicy ∧
    (App.fromPod client pod).trusted = pod.trusted := by
  repeat' apply And.intro
  all_goals rfl

/-- C3: `r.update(p)` returns the very same object reference `r`, and after
it succeeds every public field of the object at `r` equals the corresponding
field of the App constructed from the response body of the server alone (no
local merging); objects at other references are untouched. -/
theorem update_preserves_reference_and_takes_response (σ : Store) (r r' : Nat)
    (pod : PODApp) (a : App) (h : σ r = some a) (hne : r' ≠ r) :
    (App.updateMethod σ r pod).2 = r ∧
    (App.updateMethod σ r pod).1 r = some (App.fromPod a.client pod) ∧
    (App.updateMethod σ r pod).1 r' = σ r' := by
  unfold App.updateMethod
  refine ⟨rfl, ?_, ?_⟩
  · simp [h, AppImpl.update, objectAssign_overwrites_all]
  · simp [hne]

/-- C3 witness: the update theorem instantiated at the concrete store holding
`sampleApp` at reference 0, with response snapshot `samplePod` and the
untouched reference 1. -/
theorem update_preserves_reference_and_takes_response_witness :
    (App.updateMethod sampleStore 0 samplePod).2 = 0 ∧
    (App.updateMethod sampleStore 0 samplePod).1 0 =
      some (App.fromPod sampleApp.client samplePod) ∧
    (App.updateMethod sampleStore 0 samplePod).1 1 = sampleStore 1 :=
  update_preserves_reference_and_takes_response sampleStore 0 1 samplePod
    sampleApp rfl (by decide)

/-- C4: the Page returned by list has exactly the results of the server in
server order (the i-th page result is constructed from the i-th server
result), its `nextPageToken` is exactly the token provided by the server
(absent when the server provides none), and zero server results give an empty
results sequence. -/
theorem list_preserves_results_and_token (client : Nat) (podPage : Page PODApp)
    (i : Nat) (tok : Option String) (rs : List PODApp) :
    (AppImpl.list client podPage).results =
      podPage.results.map (App.fromPod client) ∧
    (AppImpl.list client podPage).results.length = podPage.results.length ∧
    (AppImpl.list client podPage).results.get? i =
      (podPage.results.get? i).map (App.fromPod client) ∧
    (AppImpl.list client podPage).nextPageToken = podPage.nextPageToken ∧
    (AppImpl.list client { results := [], nextPageToken := tok }).results = [] ∧
    (AppImpl.list client { results := rs, nextPageToken := none }).nextPageToken
      = none := by
  refine ⟨rfl, ?_, ?_, rfl, rfl, rfl⟩
  · simp [AppImpl.list]
  · simp [AppImpl.list]

/-- C5: each filter key is rendered as a query parameter named by the
lowercase-hyphenated form of the key; in particular `pageSize` and
`nextPageToken` become `page-size` and `next-page-token`, scalar values
serialize as their string form, and a composite tags filter with an all
matcher over tag1, tag2 serializes as the single value `all:tag1,tag2`. -/
theorem filter_query_encoding (f : List (String × FilterValue)) (k : String)
    (n : Nat) :
    paramCase "pageSize" = "page-size" ∧
    paramCase "nextPageToken" = "next-page-token" ∧
    serializeTags (.all ["tag1", "tag2"]) = "all:tag1,tag2" ∧
    serializeFilterEntry (k, .nat n) = (paramCase k, toString n) ∧
    serializeFilterEntry ("pageSize", .nat 2) = ("page-size", "2") ∧
    (serializeFilter f).map Prod.fst = f.map (fun e => paramCase e.1) := by
  refine ⟨rfl, rfl, rfl, rfl, rfl, ?_⟩
  induction f with
  | nil => rfl
  | cons e rest ih =>
    obtain ⟨k', v⟩ := e
    cases v <;> simpa [serializeFilter, serializeFilterEntry] using ih

/-- C6: a download whose HTTP status is non-2xx fails before any chunk is
written to the destination sink (zero chunks delivered), and a write failure
reported by the sink aborts the stream and propagates the exact error raised
by the sink. -/
theorem download_fails_early_and_propagates_sink_error (status : Nat)
    (body pre post : List (List Nat)) (sink : List Nat → Except String Unit)
    (c : List Nat) (e : String) (hbad : ¬(200 ≤ status ∧ status < 300))
    (hok : ∀ c' ∈ pre, sink c' = .ok ()) (herr : sink c = .error e) :
    pipeTo status body sink = ([], .error (.requestError status)) ∧
    pipeTo 200 (pre ++ c :: post) sink = (pre, .error (.sinkError e)) := by
  constructor
  · simp [pipeTo, hbad]
  · have hpump := pipeChunks_stops_at_first_error sink pre c post e hok herr
    simpa [pipeTo] using hpump

/-- C6 witness: the download theorem instantiated at status 404 with a
one-chunk body, and at a sink that accepts the chunk `[1]` and then fails the
chunk `[2, 3]` with the error `whoops`. -/
theorem download_fails_early_and_propagates_sink_error_witness :
    pipeTo 404 [[1, 2]] sampleSink = ([], .error (.requestError 404)) ∧
    pipeTo 200 ([[1]] ++ [2, 3] :: []) sampleSink =
      ([[1]], .error (.sinkError "whoops")) :=
  download_fails_early_and_propagates_sink_error 404 [[1, 2]] [[1]] []
    sampleSink [2, 3] "whoops" (by decide)
    (fun c' hc' => by
      simp at hc'
      subst hc'
      rfl)
    rfl

/-- C7: the dataset upload request is multipart with a part named exactly
`data` carrying the byte payload as `application/octet-stream`; a part named
exactly `metadata`, JSON-encoded, is present if and only if metadata was
supplied; and awaiting the completion of the handle on a 201 response yields
the Dataset constructed from the response body. -/
theorem upload_multipart_parts_and_result (data : List Nat) (doc : String)
    (md : Option String) (client : Nat) (pod : PODDataset) :
    uploadParts data none = [⟨"data", "application/octet-stream", .bytes data⟩] ∧
    uploadParts data (some doc) =
      [⟨"metadata", "application/json", .json doc⟩,
       ⟨"data", "application/octet-stream", .bytes data⟩] ∧
    ((uploadParts data md).filterMap
        (fun p => if p.name = "metadata" then some p else none) =
      match md with
      | some d => [⟨"metadata", "application/json", .json d⟩]
      | none => []) ∧
    uploadFinished client 201 pod = .ok (Dataset.fromPod client pod) := by
  refine ⟨rfl, rfl, ?_, rfl⟩
  cases md <;> rfl

/-- C8 counterexample: in the first module version the collection endpoint
string is `apps` — it is not the leading-slash-rooted `/apps` the claim
states for create and list, and the item endpoint is `apps/{i}`. -/
theorem apps_endpoint_not_slash_rooted :
    APPS_EP ≠ "/apps" ∧ APPS_EP.data.head? ≠ some '/' ∧
    endpointForId "123" = "apps/123" := by
  refine ⟨?_, ?_, rfl⟩ <;> decide

/-- C8 amended: every App operation targets the plural collection path with
the id appended after a single slash; in the first module version the strings
are `apps` and `apps/{i}` (relative, resolved against the API base URL), in
the second module version they are the leading-slash-rooted `/apps` and
`/apps/{i}`. -/
theorem apps_endpoint_pattern (i : AppId) :
    APPS_EP = "apps" ∧
    endpointForId i = APPS_EP ++ "/" ++ i ∧
    V2.APPS_EP = "/apps" ∧
    V2.endpointForId i = "/apps/" ++ i ∧
    V2.endpointForId i = V2.APPS_EP ++ "/" ++ i := by
  exact ⟨rfl, rfl, rfl, rfl, rfl⟩

/-- C9: calling `r.delete()` leaves the store — in particular every public
field of the object at `r` — unchanged, and on a 204 response the operation
resolves with void (`()`); the object is not invalidated or mutated. -/
theorem delete_method_leaves_object_unchanged (σ : Store) (r status : Nat) :
    (App.deleteMethod σ r status).1 = σ ∧
    (App.deleteMethod σ r status).1 r = σ r ∧
    (App.deleteMethod σ r 204).2 = (σ r).map (fun _ => Except.ok ()) := by
  refine ⟨rfl, rfl, ?_⟩
  unfold App.deleteMethod
  cases σ r <;> rfl

/-- C10: when the optional `invites` field is absent from the POD snapshot,
the `invites` field of the constructed App is absent (undefined) as well,
because the constructor copies the field without supplying a default: the
constructed field always equals the POD field verbatim. -/
theorem invites_absent_when_pod_invites_absent (client : Nat) (pod : PODApp)
    (h : pod.invites = none) :
    (App.fromPod client pod).invites = none ∧
    (App.fromPod client pod).invites = pod.invites := by
  exact ⟨h ▸ rfl, rfl⟩

/-- C10 witness: `samplePod` has no `invites` field and the App built from it
has none either. -/
theorem invites_absent_when_pod_invites_absent_witness :
    (App.fromPod 0 samplePod).invites = none ∧
    (App.fromPod 0 samplePod).invites = samplePod.invites :=
  invites_absent_when_pod_invites_absent 0 samplePod rfl
